import Mathlib

/-
  Verification of the DermCareAI backend core against its specification.

  Shallow embedding of the Python sources:
    - src/backend/ImagePreprocessing.py  (ImagePreprocessor)
    - src/backend/grad_cam.py            (pytorch_grad_cam, tensorflow_grad_cam, apply_grad_cam)
    - src/backend/app.py                 (ModelService.process_image)
    - src/backend/MelanomaClassifier.py  (MobileNetPredictor)
    - src/backend/SkinLesionClassifier.py (SkinLesionClassifier)

  External collaborators (OpenCV filters, PIL decode, the neural networks and
  their autodiff) are modelled as oracle parameters; a step that can raise a
  Python exception is an oracle returning Option (none = the step raised).
  Machine floats are modelled as rationals.
-/

namespace DermCareAI

/- ===================================================================
   ImagePreprocessing.py : ImagePreprocessor
   `α` is the type of colour images, `β` the type of single-channel
   (grayscale / mask) images, `γ` the type of raw byte buffers.
   =================================================================== -/

section Preprocessing

variable {α β γ : Type}

/-- Body of the `try` block of `ImagePreprocessor.hair_remove`:
cvtColor → getStructuringElement/morphologyEx (black-hat) → threshold →
inpaint.  Each oracle returns `none` when the corresponding cv2 call raises;
`none` overall means the `except` branch is taken. -/
def hairRemoveTry (cvtGray : α → Option β) (blackhat : β → Option β)
    (threshold : β → Option β) (inpaint : α → β → Option α)
    (image : α) : Option α :=
  match cvtGray image with
  | none => none
  | some g =>
    match blackhat g with
    | none => none
    | some b =>
      match threshold b with
      | none => none
      | some t => inpaint image t

/-- `ImagePreprocessor.hair_remove`: on any internal failure the `except`
branch returns the unmodified `image` parameter. -/
def hair_remove (cvtGray : α → Option β) (blackhat : β → Option β)
    (threshold : β → Option β) (inpaint : α → β → Option α)
    (image : α) : α :=
  match hairRemoveTry cvtGray blackhat threshold inpaint image with
  | some r => r
  | none => image

/-- Body of the `try` block of `ImagePreprocessor.sharpen_image`:
GaussianBlur then addWeighted(image, 1.5, gaussian, -0.5, 0). -/
def sharpenTry (blur : α → Option α) (addWeighted : α → α → Option α)
    (image : α) : Option α :=
  match blur image with
  | none => none
  | some g => addWeighted image g

/-- `ImagePreprocessor.sharpen_image`: on any internal failure the `except`
branch returns the unmodified `image` parameter. -/
def sharpen_image (blur : α → Option α) (addWeighted : α → α → Option α)
    (image : α) : α :=
  match sharpenTry blur addWeighted image with
  | some r => r
  | none => image

/-- `ImagePreprocessor.preprocess`: hair removal, then sharpening, then
`cv2.resize` to the target size; the surrounding `try` turns a raised
exception (only `resize` can still raise, the two filter steps catch their
own) into the return value `None`. -/
def preprocess (cvtGray : α → Option β) (blackhat : β → Option β)
    (threshold : β → Option β) (inpaint : α → β → Option α)
    (blur : α → Option α) (addWeighted : α → α → Option α)
    (resize : α → Option α) (image : α) : Option α :=
  resize (sharpen_image blur addWeighted
    (hair_remove cvtGray blackhat threshold inpaint image))

/-- `ImagePreprocessor.process_bytes`: `cv2.imdecode` returns the value
`None` on an undecodable buffer (modelled by the oracle returning `none`),
in which case the following `cvtColor` raises and the `except` branch
returns `None`; otherwise BGR→RGB conversion (which may raise) feeds
`preprocess`, whose result is returned directly. -/
def process_bytes (imdecode : γ → Option α) (cvtRGB : α → Option α)
    (cvtGray : α → Option β) (blackhat : β → Option β)
    (threshold : β → Option β) (inpaint : α → β → Option α)
    (blur : α → Option α) (addWeighted : α → α → Option α)
    (resize : α → Option α) (buf : γ) : Option α :=
  match imdecode buf with
  | none => none
  | some img =>
    match cvtRGB img with
    | none => none
    | some rgb =>
      preprocess cvtGray blackhat threshold inpaint blur addWeighted resize rgb

end Preprocessing

/- ===================================================================
   Theorems for claims C7 and C10
   =================================================================== -/

/-- Claim C7: if the hair-removal step fails internally it returns the
unmodified input (never a partial result); the same fail-soft contract holds
for the sharpening step; and when hair removal fails, the output of
`preprocess` is exactly the resize of the sharpening of the untouched input
image — it differs from the input only by sharpening and resize.  Neither
filter step ever aborts the pipeline. -/
theorem c7_fail_soft_preprocessing {α β : Type}
    (cvtGray : α → Option β) (blackhat : β → Option β)
    (threshold : β → Option β) (inpaint : α → β → Option α)
    (blur : α → Option α) (addWeighted : α → α → Option α)
    (resize : α → Option α) (image : α) :
    (hairRemoveTry cvtGray blackhat threshold inpaint image = none →
      hair_remove cvtGray blackhat threshold inpaint image = image)
    ∧ (sharpenTry blur addWeighted image = none →
      sharpen_image blur addWeighted image = image)
    ∧ (hairRemoveTry cvtGray blackhat threshold inpaint image = none →
      preprocess cvtGray blackhat threshold inpaint blur addWeighted resize
        image = resize (sharpen_image blur addWeighted image)) := by
  refine ⟨fun h => ?_, fun h => ?_, fun h => ?_⟩
  · simp [hair_remove, h]
  · simp [sharpen_image, h]
  · simp [preprocess, hair_remove, h]

/-- Witness for C7 at concrete oracles: every internal cv2 call raising
(`fun _ => none`), on the image `37 : ℕ`. -/
theorem c7_fail_soft_preprocessing_witness :
    hair_remove (fun _ : ℕ => (none : Option ℕ)) (fun _ => none)
        (fun _ => none) (fun _ _ => none) 37 = 37
    ∧ preprocess (fun _ : ℕ => (none : Option ℕ)) (fun _ => none)
        (fun _ => none) (fun _ _ => none) (fun _ => none) (fun _ _ => none)
        (fun x => some (x + 1)) 37 = some 38 := by
  have h := c7_fail_soft_preprocessing (fun _ : ℕ => (none : Option ℕ))
    (fun _ => none) (fun _ => none) (fun _ _ => none) (fun _ => none)
    (fun _ _ => none) (fun x => some (x + 1)) 37
  refine ⟨h.1 rfl, ?_⟩
  rw [h.2.2 rfl]
  simp [sharpen_image, sharpenTry]

/-- Claim C10: the preprocessing entry points never raise — `preprocess`
returns `none` exactly when its internal resize raises (the filter steps are
fail-soft), and `process_bytes` returns `none` when the decode chain fails
and otherwise defers to `preprocess`; in all cases the caller receives an
optional image, never an exception. -/
theorem c10_preprocessing_returns_optional {α β γ : Type}
    (imdecode : γ → Option α) (cvtRGB : α → Option α)
    (cvtGray : α → Option β) (blackhat : β → Option β)
    (threshold : β → Option β) (inpaint : α → β → Option α)
    (blur : α → Option α) (addWeighted : α → α → Option α)
    (resize : α → Option α) :
    (∀ image : α,
      preprocess cvtGray blackhat threshold inpaint blur addWeighted resize
          image = none ↔
        resize (sharpen_image blur addWeighted
          (hair_remove cvtGray blackhat threshold inpaint image)) = none)
    ∧ (∀ buf : γ, imdecode buf = none →
      process_bytes imdecode cvtRGB cvtGray blackhat threshold inpaint blur
        addWeighted resize buf = none)
    ∧ (∀ (buf : γ) (img : α), imdecode buf = some img → cvtRGB img = none →
      process_bytes imdecode cvtRGB cvtGray blackhat threshold inpaint blur
        addWeighted resize buf = none)
    ∧ (∀ (buf : γ) (img rgb : α), imdecode buf = some img →
      cvtRGB img = some rgb →
      process_bytes imdecode cvtRGB cvtGray blackhat threshold inpaint blur
          addWeighted resize buf =
        preprocess cvtGray blackhat threshold inpaint blur addWeighted resize
          rgb) := by
  refine ⟨fun image => Iff.rfl, fun buf h => ?_, fun buf img h1 h2 => ?_,
    fun buf img rgb h1 h2 => ?_⟩
  · simp [process_bytes, h]
  · simp [process_bytes, h1, h2]
  · simp [process_bytes, h1, h2]

/-- Witness for C10 at concrete oracles: an undecodable buffer and a resize
step that raises both yield the sentinel `none`. -/
theorem c10_preprocessing_returns_optional_witness :
    process_bytes (fun _ : ℕ => (none : Option ℕ)) some some some some
        (fun _ _ => none) some (fun x _ => some x) (fun _ => none) 0 = none
    ∧ (preprocess (some : ℕ → Option ℕ) some some (fun _ _ => none) some
        (fun x _ => some x) (fun _ => none) 5 = none ↔
      (none : Option ℕ) = none) := by
  have h := c10_preprocessing_returns_optional
    (fun _ : ℕ => (none : Option ℕ)) some some some some (fun _ _ => none)
    some (fun x _ => some x) (fun _ => none)
  have h2 := c10_preprocessing_returns_optional (some : ℕ → Option ℕ) some
    some some some (fun _ _ => none) some (fun x _ => some x) (fun _ => none)
  exact ⟨h.2.1 0 rfl, h2.1 5⟩

/- ===================================================================
   grad_cam.py : heatmap normalization
   A heatmap is its (nonempty) list of cells; min/max over all cells.
   =================================================================== -/

/-- Minimum of a list of rationals, as a fold (0 on the empty list, which the
source never produces). -/
def listMin : List ℚ → ℚ
  | [] => 0
  | x :: xs => xs.foldl min x

/-- Maximum of a list of rationals, as a fold (0 on the empty list, which the
source never produces). -/
def listMax : List ℚ → ℚ
  | [] => 0
  | x :: xs => xs.foldl max x

/-- Elementwise rectification (`F.relu` / `tf.maximum(·, 0)`). -/
def relu (x : ℚ) : ℚ := max x 0

/-- Final normalization of `pytorch_grad_cam` (grad_cam.py lines 65-67):
`heatmap = F.relu(heatmap)` then
`heatmap = (heatmap - heatmap.min()) / (heatmap.max() - heatmap.min() + 1e-8)`. -/
def pytorchNormalizeHeatmap (h : List ℚ) : List ℚ :=
  let r := h.map relu
  let mn := listMin r
  let mx := listMax r
  r.map (fun x => (x - mn) / (mx - mn + 1 / 100000000))

/-- Final normalization of `tensorflow_grad_cam` (grad_cam.py line 133):
`heatmap = tf.maximum(heatmap, 0) / tf.math.reduce_max(heatmap)` — the
divisor is the maximum of the pre-rectification heatmap (the right-hand side
is evaluated before the reassignment), and there is no epsilon term and no
minimum subtraction. -/
def tensorflowNormalizeHeatmap (h : List ℚ) : List ℚ :=
  let mx := listMax h
  h.map (fun x => relu x / mx)

theorem le_foldl_max (xs : List ℚ) (a : ℚ) : a ≤ xs.foldl max a := by
  induction xs generalizing a with
  | nil => exact le_refl a
  | cons y tl ih => exact le_trans (le_max_left a y) (ih (max a y))

theorem mem_le_foldl_max (xs : List ℚ) (a : ℚ) :
    ∀ x ∈ xs, x ≤ xs.foldl max a := by
  induction xs generalizing a with
  | nil => intro x hx; cases hx
  | cons y tl ih =>
    intro x hx
    rcases List.mem_cons.mp hx with h | h
    · subst h
      exact le_trans (le_max_right a x) (le_foldl_max tl (max a x))
    · exact ih (max a y) x h

theorem foldl_min_le (xs : List ℚ) (a : ℚ) : xs.foldl min a ≤ a := by
  induction xs generalizing a with
  | nil => exact le_refl a
  | cons y tl ih => exact le_trans (ih (min a y)) (min_le_left a y)

theorem foldl_min_le_mem (xs : List ℚ) (a : ℚ) :
    ∀ x ∈ xs, xs.foldl min a ≤ x := by
  induction xs generalizing a with
  | nil => intro x hx; cases hx
  | cons y tl ih =>
    intro x hx
    rcases List.mem_cons.mp hx with h | h
    · subst h
      exact le_trans (foldl_min_le tl (min a x)) (min_le_right a x)
    · exact ih (min a y) x h

theorem mem_le_listMax (l : List ℚ) : ∀ x ∈ l, x ≤ listMax l := by
  intro x hx
  cases l with
  | nil => cases hx
  | cons y tl =>
    rcases List.mem_cons.mp hx with h | h
    · subst h; exact le_foldl_max tl x
    · exact mem_le_foldl_max tl y x h

theorem listMin_le_mem (l : List ℚ) : ∀ x ∈ l, listMin l ≤ x := by
  intro x hx
  cases l with
  | nil => cases hx
  | cons y tl =>
    rcases List.mem_cons.mp hx with h | h
    · subst h; exact foldl_min_le tl x
    · exact foldl_min_le_mem tl y x h

theorem foldl_max_const (xs : List ℚ) (c : ℚ) (h : ∀ x ∈ xs, x = c) :
    xs.foldl max c = c := by
  induction xs with
  | nil => rfl
  | cons y tl ih =>
    have hy : y = c := h y (List.mem_cons_self y tl)
    have htl : ∀ x ∈ tl, x = c := fun x hx => h x (List.mem_cons_of_mem y hx)
    simp only [List.foldl_cons, hy, max_self]
    exact ih htl

theorem foldl_min_const (xs : List ℚ) (c : ℚ) (h : ∀ x ∈ xs, x = c) :
    xs.foldl min c = c := by
  induction xs with
  | nil => rfl
  | cons y tl ih =>
    have hy : y = c := h y (List.mem_cons_self y tl)
    have htl : ∀ x ∈ tl, x = c := fun x hx => h x (List.mem_cons_of_mem y hx)
    simp only [List.foldl_cons, hy, min_self]
    exact ih htl

theorem listMax_const (l : List ℚ) (c : ℚ) (hne : l ≠ [])
    (h : ∀ x ∈ l, x = c) : listMax l = c := by
  cases l with
  | nil => exact absurd rfl hne
  | cons y tl =>
    have hy : y = c := h y (List.mem_cons_self y tl)
    subst hy
    exact foldl_max_const tl y (fun x hx => h x (List.mem_cons_of_mem y hx))

theorem listMin_const (l : List ℚ) (c : ℚ) (hne : l ≠ [])
    (h : ∀ x ∈ l, x = c) : listMin l = c := by
  cases l with
  | nil => exact absurd rfl hne
  | cons y tl =>
    have hy : y = c := h y (List.mem_cons_self y tl)
    subst hy
    exact foldl_min_const tl y (fun x hx => h x (List.mem_cons_of_mem y hx))

theorem tensorflowNormalizeHeatmap_one : tensorflowNormalizeHeatmap [1] = [1] := by
  simp [tensorflowNormalizeHeatmap, listMax, relu]

theorem pytorchNormalizeHeatmap_one : pytorchNormalizeHeatmap [1] = [0] := by
  simp [pytorchNormalizeHeatmap, listMin, listMax, relu]

theorem listMax_pair : listMax [0, (1 : ℚ)/2] = 1/2 := by
  simp [listMax]

theorem tensorflowNormalizeHeatmap_pair :
    tensorflowNormalizeHeatmap [0, 1/2] = [0, 1] := by
  simp only [tensorflowNormalizeHeatmap, List.map_cons, List.map_nil, relu,
    listMax_pair]
  norm_num

/-- Counterexample to claim C2 as stated: in the TensorFlow variant, the
degenerate uniform heatmap `[1]` (max equals min) normalizes to `[1]`, not to
the all-zero heatmap — the normalization divides `relu h` by `max h` with no
epsilon term and no minimum subtraction. -/
theorem c2_counterexample :
    tensorflowNormalizeHeatmap [1] ≠ [0] := by
  rw [tensorflowNormalizeHeatmap_one]
  simp

/-- Claim C2 (amended): in the PyTorch variant every normalized cell lies in
[0,1] and a uniform pre-normalization heatmap normalizes to all zeros (the
epsilon term guards the division); in the TensorFlow variant the cells lie in
[0,1] provided the pre-rectification maximum is positive (there is no epsilon
term, and a uniform positive heatmap normalizes to all ones, not zeros). -/
theorem c2_heatmap_normalization_bounds (h : List ℚ) :
    (∀ y ∈ pytorchNormalizeHeatmap h, 0 ≤ y ∧ y ≤ 1)
    ∧ (∀ c : ℚ, (∀ x ∈ h, x = c) → ∀ y ∈ pytorchNormalizeHeatmap h, y = 0)
    ∧ (0 < listMax h → ∀ y ∈ tensorflowNormalizeHeatmap h, 0 ≤ y ∧ y ≤ 1) := by
  refine ⟨?_, ?_, ?_⟩
  · intro y hy
    simp only [pytorchNormalizeHeatmap] at hy
    obtain ⟨x, hx, rfl⟩ := List.mem_map.mp hy
    have hmn : listMin (h.map relu) ≤ x := listMin_le_mem (h.map relu) x hx
    have hmx : x ≤ listMax (h.map relu) := mem_le_listMax (h.map relu) x hx
    have hdenom : (0 : ℚ) <
        listMax (h.map relu) - listMin (h.map relu) + 1 / 100000000 := by
      have : (0 : ℚ) ≤ listMax (h.map relu) - listMin (h.map relu) := by
        linarith
      linarith
    constructor
    · exact div_nonneg (by linarith) (le_of_lt hdenom)
    · rw [div_le_one hdenom]
      linarith
  · intro c hc y hy
    simp only [pytorchNormalizeHeatmap] at hy
    obtain ⟨x, hx, rfl⟩ := List.mem_map.mp hy
    have hrelu : ∀ z ∈ h.map relu, z = relu c := by
      intro z hz
      obtain ⟨w, hw, rfl⟩ := List.mem_map.mp hz
      rw [hc w hw]
    have hne : h.map relu ≠ [] := by
      intro hnil
      rw [hnil] at hx
      cases hx
    have hxc : x = relu c := hrelu x hx
    rw [listMin_const (h.map relu) (relu c) hne hrelu, hxc, sub_self, zero_div]
  · intro hmx y hy
    simp only [tensorflowNormalizeHeatmap] at hy
    obtain ⟨x, hx, rfl⟩ := List.mem_map.mp hy
    have hxle : x ≤ listMax h := mem_le_listMax h x hx
    have hrelu_le : relu x ≤ listMax h := by
      rw [relu]
      exact max_le hxle (le_of_lt hmx)
    constructor
    · exact div_nonneg (le_max_right x 0) (le_of_lt hmx)
    · rw [div_le_one hmx]
      exact hrelu_le

/-- Witness for C2 (amended) at concrete heatmaps: the PyTorch normalization
of the uniform heatmap `[1]` is all zeros and in bounds, and the TensorFlow
normalization of `[0, 1/2]` is in bounds. -/
theorem c2_heatmap_normalization_bounds_witness :
    (0 ≤ (0 : ℚ) ∧ (0 : ℚ) ≤ 1) ∧ (0 : ℚ) = 0
    ∧ (0 ≤ (1 : ℚ) ∧ (1 : ℚ) ≤ 1) := by
  refine ⟨?_, ?_, ?_⟩
  · exact (c2_heatmap_normalization_bounds [1]).1 0
      (by rw [pytorchNormalizeHeatmap_one]; exact List.mem_singleton.mpr rfl)
  · exact (c2_heatmap_normalization_bounds [1]).2.1 1 (by simp) 0
      (by rw [pytorchNormalizeHeatmap_one]; exact List.mem_singleton.mpr rfl)
  · exact (c2_heatmap_normalization_bounds [0, 1/2]).2.2
      (by rw [listMax_pair]; norm_num) 1
      (by rw [tensorflowNormalizeHeatmap_pair]; simp)

/- ===================================================================
   grad_cam.py : heatmap construction from captured data
   An activation / gradient grid with C channels over an H×W spatial
   extent is a function  Fin C → Fin H → Fin W → ℚ.  The autodiff
   backends are external: the captured tensors (activation at the target
   layer, gradient of the target-class score with respect to that
   activation, and — in the PyTorch source — the gradient with respect
   to the input tensor) enter the embedding as data.
   =================================================================== -/

/-- Mean of a grid over its spatial extent (`torch.mean(·, dim=(2,3))` /
`tf.reduce_mean(·, axis=(1,2))` for one channel). -/
def spatialMean {H W : ℕ} (g : Fin H → Fin W → ℚ) : ℚ :=
  (∑ i, ∑ j, g i j) / ((H : ℚ) * (W : ℚ))

/-- Heatmap built by `tensorflow_grad_cam` (grad_cam.py lines 128-132)
before normalization: `grads = tape.gradient(loss, conv_output)` is the
gradient of the target-class score with respect to the captured target-layer
activation `conv`; `weights = tf.reduce_mean(grads, axis=(1, 2))`;
`heatmap = tf.reduce_sum(weights * conv_output, axis=-1)`. -/
def tensorflowHeatmap {C H W : ℕ} (conv : Fin C → Fin H → Fin W → ℚ)
    (grads : Fin C → Fin H → Fin W → ℚ) : Fin H → Fin W → ℚ :=
  fun i j => ∑ c, spatialMean (grads c) * conv c i j

/-- Heatmap built by `pytorch_grad_cam` (grad_cam.py lines 52-62) before
normalization: `gradients = input_tensor.grad.data` is the gradient of the
one-hot-weighted output with respect to the INPUT tensor (batch×3×Hi×Wi, not
the target-layer activation); `weights = torch.mean(gradients, dim=(2, 3))`
has 3 entries; `features = target_layer(input_tensor)` re-applies the target
layer to the input; the loop `for i, w in enumerate(weights[0])` adds
`w * features[0, i]` for the first 3 channels only. -/
def pytorchHeatmap {C H W Hi Wi : ℕ} (hC : 3 ≤ C)
    (features : Fin C → Fin H → Fin W → ℚ)
    (inputGrad : Fin 3 → Fin Hi → Fin Wi → ℚ) : Fin H → Fin W → ℚ :=
  fun i j => ∑ k : Fin 3, spatialMean (inputGrad k) * features (Fin.castLE hC k) i j

/-- Per-channel weight vector as the spec words it (§4.3 step 3): the
spatial mean, per channel, of the gradient of the target-class scalar output
with respect to the captured target-layer activation.  This definition is
the refinement comparand transcribed from the spec, not from the source. -/
def gradCamSpecWeights {C H W : ℕ} (activGrad : Fin C → Fin H → Fin W → ℚ) :
    Fin C → ℚ :=
  fun c => spatialMean (activGrad c)

/-- Heatmap as the spec words it (§4.3 step 4): the sum over channels of
`weight[c] * activation[c]`.  Refinement comparand transcribed from the
spec, not from the source. -/
def gradCamSpecHeatmap {C H W : ℕ} (activ : Fin C → Fin H → Fin W → ℚ)
    (activGrad : Fin C → Fin H → Fin W → ℚ) : Fin H → Fin W → ℚ :=
  fun i j => ∑ c, gradCamSpecWeights activGrad c * activ c i j

/-- Concrete 3-channel 1×1 captured data exhibiting the divergence of the
PyTorch variant: activation all ones, gradient with respect to the
activation all ones, gradient with respect to the input all zeros. -/
def c3activation : Fin 3 → Fin 1 → Fin 1 → ℚ := fun _ _ _ => 1

/-- Gradient of the target-class score with respect to `c3activation`. -/
def c3activGrad : Fin 3 → Fin 1 → Fin 1 → ℚ := fun _ _ _ => 1

/-- Gradient of the target-class score with respect to the input tensor in
the same concrete scenario. -/
def c3inputGrad : Fin 3 → Fin 1 → Fin 1 → ℚ := fun _ _ _ => 0

/-- Claim C3, settled against the code: the TensorFlow variant builds
exactly the heatmap the spec describes (weights = spatial mean of the
gradient with respect to the captured activation, heatmap = channel-weighted
sum of the activation), but the PyTorch variant does not — it weights by the
spatial mean of the gradient with respect to the input tensor: at the
concrete captured data above it produces 0 where the specified algorithm
produces 3. -/
theorem c3_gradcam_weights_and_heatmap :
    (∀ (C H W : ℕ) (conv grads : Fin C → Fin H → Fin W → ℚ),
      tensorflowHeatmap conv grads = gradCamSpecHeatmap conv grads)
    ∧ pytorchHeatmap (by norm_num) c3activation c3inputGrad 0 0 = 0
    ∧ gradCamSpecHeatmap c3activation c3activGrad 0 0 = 3 := by
  refine ⟨fun C H W conv grads => rfl, ?_, ?_⟩
  · simp [pytorchHeatmap, spatialMean, c3activation, c3inputGrad]
  · simp [gradCamSpecHeatmap, gradCamSpecWeights, spatialMean, c3activation,
      c3activGrad, Fin.sum_univ_three]

/-- Witness for C3 at concrete captured data: the TensorFlow heatmap agrees
with the specified algorithm on the concrete 3-channel 1×1 activation and
gradient grids. -/
theorem c3_gradcam_weights_and_heatmap_witness :
    tensorflowHeatmap c3activation c3activGrad =
      gradCamSpecHeatmap c3activation c3activGrad :=
  c3_gradcam_weights_and_heatmap.1 3 1 1 c3activation c3activGrad

/- ===================================================================
   grad_cam.py : apply_grad_cam (Visualization Compositor)
   An image is a function  Fin H → Fin W → Fin 3 → ℚ  (RGB, float form);
   a heatmap at image resolution is  Fin H → Fin W → ℚ.  The embedding
   covers the code path where the heatmap already matches the image
   resolution (otherwise cv2.resize, an external collaborator, brings it
   there first and the same arithmetic follows).
   =================================================================== -/

/-- `np.uint8` conversion of a nonnegative float value (wraps modulo 256). -/
def uint8Cast (x : ℚ) : ℚ := (((⌊x⌋ : ℤ) % 256 : ℤ) : ℚ)

/-- `np.clip(·, 0, 1)` on one value. -/
def clip01 (x : ℚ) : ℚ := min (max x 0) 1

/-- `apply_grad_cam` (grad_cam.py lines 142-171): scale the heatmap with
`np.uint8(255 * heatmap)`, write it into the red channel of an otherwise
zero overlay, add `alpha` times the overlay to the image, clip to [0,1]. -/
def apply_grad_cam {H W : ℕ} (original_image : Fin H → Fin W → Fin 3 → ℚ)
    (heatmap : Fin H → Fin W → ℚ) (alpha : ℚ) : Fin H → Fin W → Fin 3 → ℚ :=
  fun i j c =>
    clip01 (original_image i j c +
      alpha * (if c = 0 then uint8Cast (255 * heatmap i j) else 0))

/-- Claim C9: compositing with the all-zero heatmap is the identity on any
image whose cells lie in [0,1], and for all images, heatmaps and alphas the
composited output lies elementwise in [0,1]. -/
theorem c9_composite_identity_and_bounds {H W : ℕ} :
    (∀ (img : Fin H → Fin W → Fin 3 → ℚ) (alpha : ℚ),
      (∀ i j c, 0 ≤ img i j c ∧ img i j c ≤ 1) →
      apply_grad_cam img (fun _ _ => 0) alpha = img)
    ∧ (∀ (img : Fin H → Fin W → Fin 3 → ℚ) (hm : Fin H → Fin W → ℚ)
        (alpha : ℚ) (i : Fin H) (j : Fin W) (c : Fin 3),
      0 ≤ apply_grad_cam img hm alpha i j c
      ∧ apply_grad_cam img hm alpha i j c ≤ 1) := by
  constructor
  · intro img alpha hbound
    funext i j c
    have hzero : uint8Cast (255 * (0 : ℚ)) = 0 := by
      simp [uint8Cast]
    simp only [apply_grad_cam, hzero]
    have : (if c = 0 then (0 : ℚ) else 0) = 0 := by
      split <;> rfl
    rw [this, mul_zero, add_zero, clip01,
      max_eq_left (hbound i j c).1, min_eq_left (hbound i j c).2]
  · intro img hm alpha i j c
    constructor
    · exact le_min (le_max_right _ 0) zero_le_one
    · exact min_le_right _ 1

/-- Witness for C9 at a concrete 1×1 mid-gray image and `alpha = 2/5`: the
all-zero heatmap leaves it unchanged and a nonzero composite stays in
bounds. -/
theorem c9_composite_identity_and_bounds_witness :
    apply_grad_cam (fun (_ : Fin 1) (_ : Fin 1) (_ : Fin 3) => (1 : ℚ)/2)
        (fun _ _ => 0) (2/5) = (fun _ _ _ => (1 : ℚ)/2)
    ∧ (0 ≤ apply_grad_cam (fun (_ : Fin 1) (_ : Fin 1) (_ : Fin 3) => (1 : ℚ)/2)
        (fun _ _ => 1) (2/5) 0 0 0
      ∧ apply_grad_cam (fun (_ : Fin 1) (_ : Fin 1) (_ : Fin 3) => (1 : ℚ)/2)
        (fun _ _ => 1) (2/5) 0 0 0 ≤ 1) := by
  constructor
  · exact c9_composite_identity_and_bounds.1 _ (2/5)
      (fun i j c => by norm_num)
  · exact c9_composite_identity_and_bounds.2 _ (fun _ _ => 1) (2/5) 0 0 0

/- ===================================================================
   grad_cam.py : target-layer resolution
   =================================================================== -/

/-- A Keras layer as seen by the lookup code: its name and whether it is an
instance of `tf.keras.layers.Conv2D`. -/
structure KLayer where
  name : String
  isConv2D : Bool
deriving DecidableEq

/-- Target-layer lookup of `pytorch_grad_cam` (grad_cam.py lines 31-39):
scan `named_modules()` for an exact name match; when nothing matches, raise
`ValueError(f"Layer LAYERNAME not found in model")` — there is no fallback
and no retry inside the function, and its caller
(`MobileNetPredictor.predict_with_gradcam`) does not retry either. -/
def pytorchFindTargetLayer (named_modules : List (String × ℕ))
    (layer_name : String) : Except String ℕ :=
  match named_modules.find? (fun p => p.1 = layer_name) with
  | some p => .ok p.2
  | none => .error ("Layer " ++ layer_name ++ " not found in model")

/-- Target-layer lookup of `tensorflow_grad_cam` (grad_cam.py lines
101-112): try `model.get_layer(layer_name)`; on `ValueError`, fall back once
to the first `Conv2D` layer in `reversed(model.layers)` (the
architecturally-last convolutional layer); when no `Conv2D` exists either,
the guard `if not target_layer` reads a never-assigned local and Python
raises `UnboundLocalError` (modelled as the error string below). -/
def tensorflowFindTargetLayer (layers : List KLayer)
    (layer_name : String) : Except String KLayer :=
  match layers.find? (fun l => l.name = layer_name) with
  | some l => .ok l
  | none =>
    match layers.reverse.find? (fun l => l.isConv2D) with
    | some l => .ok l
    | none => .error "local variable target_layer referenced before assignment"

/-- Counterexample to claim C6 as stated: a model whose architecturally-last
convolutional layer exists but whose configured target-layer name does not
resolve.  The claim says both backend variants recover by one retry with the
fallback layer; the PyTorch variant instead fails the request immediately
with the named layer-not-found error. -/
theorem c6_counterexample :
    pytorchFindTargetLayer [("conv_last", 7)] "features" =
      .error "Layer features not found in model" := by
  rfl

/-- Claim C6 (amended): when the configured target-layer name does not
resolve, the PyTorch variant surfaces the named layer-not-found error with
no fallback and no retry, while the TensorFlow variant falls back exactly
once to the architecturally-last convolutional layer (the first `Conv2D` in
the reversed layer list) and fails only when none exists. -/
theorem c6_layer_not_found_fallback (named_modules : List (String × ℕ))
    (layers : List KLayer) (layer_name : String) :
    (named_modules.find? (fun p => p.1 = layer_name) = none →
      pytorchFindTargetLayer named_modules layer_name =
        .error ("Layer " ++ layer_name ++ " not found in model"))
    ∧ (∀ conv : KLayer, layers.find? (fun l => l.name = layer_name) = none →
      layers.reverse.find? (fun l => l.isConv2D) = some conv →
      tensorflowFindTargetLayer layers layer_name = .ok conv)
    ∧ (layers.find? (fun l => l.name = layer_name) = none →
      layers.reverse.find? (fun l => l.isConv2D) = none →
      tensorflowFindTargetLayer layers layer_name =
        .error "local variable target_layer referenced before assignment") := by
  refine ⟨fun h => ?_, fun conv h1 h2 => ?_, fun h1 h2 => ?_⟩
  · simp [pytorchFindTargetLayer, h]
  · simp [tensorflowFindTargetLayer, h1, h2]
  · simp [tensorflowFindTargetLayer, h1, h2]

/-- Witness for C6 (amended) at a concrete two-layer model: the name
`conv2d_93` resolves against neither layer; the TensorFlow variant falls
back to the last convolutional layer `sep_conv`, and a convolution-free
model fails. -/
theorem c6_layer_not_found_fallback_witness :
    tensorflowFindTargetLayer [⟨"dense_out", false⟩, ⟨"sep_conv", true⟩]
        "conv2d_93" = .ok ⟨"sep_conv", true⟩
    ∧ tensorflowFindTargetLayer [⟨"dense_out", false⟩] "conv2d_93" =
      .error "local variable target_layer referenced before assignment" := by
  constructor
  · exact (c6_layer_not_found_fallback []
      [⟨"dense_out", false⟩, ⟨"sep_conv", true⟩] "conv2d_93").2.1
      ⟨"sep_conv", true⟩ (by rfl) (by rfl)
  · exact (c6_layer_not_found_fallback [] [⟨"dense_out", false⟩]
      "conv2d_93").2.2 (by rfl) (by rfl)

/- ===================================================================
   app.py : ModelService.process_image (Cascade Controller)
   The two neural networks enter as oracles giving the softmax output
   lists; `torch.argmax` / `tf.argmax` return the first index attaining
   the maximum.  A request is settled as `Except HTTPError CascadeResult`
   (an `.error` is the HTTPException delivered to the caller), paired
   with call-count instrumentation of the Stage-2 adapter.
   =================================================================== -/

/-- First index of the running maximum: accumulator = best value so far,
next index, best index so far.  A later element replaces the best only when
strictly greater, so ties resolve to the first occurrence. -/
def argmaxAux : List ℚ → ℚ → ℕ → ℕ → ℕ
  | [], _, _, best => best
  | x :: tl, bv, i, best =>
    if bv < x then argmaxAux tl x (i + 1) i else argmaxAux tl bv (i + 1) best

/-- `torch.argmax` / `tf.argmax` over a softmax output list. -/
def argmaxIdx : List ℚ → ℕ
  | [] => 0
  | x :: tl => argmaxAux tl x 1 0

/-- `{class_index, probabilities}` as returned by `MobileNetPredictor.predict`
and by `SkinLesionClassifier.predict_with_gradcam` (`probabilities` is the
softmax output; `class_index` its argmax). -/
structure PredictionOutput where
  class_index : ℕ
  probabilities : List ℚ
deriving DecidableEq

/-- `MobileNetPredictor.predict` (MelanomaClassifier.py lines 95-113):
softmax probabilities from the network (oracle `forward`), class index by
`torch.argmax`. -/
def mobilenetPredict {Img : Type} (forward : Img → List ℚ) (image : Img) :
    PredictionOutput :=
  ⟨argmaxIdx (forward image), forward image⟩

/-- `SkinLesionClassifier.predict_with_gradcam` (SkinLesionClassifier.py
lines 72-110): `model.predict`, argmax, then `tensorflow_grad_cam` — which
may raise (oracle `gradCamOk` false), in which case the exception propagates
to the caller. -/
def nasnetPredictWithGradcam {Img : Type} (forward : Img → List ℚ)
    (gradCamOk : Img → ℕ → Bool) (image : Img) :
    Except String PredictionOutput :=
  let probs := forward image
  let cls := argmaxIdx probs
  if gradCamOk image cls then .ok ⟨cls, probs⟩
  else .error "Layer conv2d_93 not found in model"

/-- An HTTPException as delivered to the serving boundary. -/
structure HTTPError where
  status : ℕ
  detail : String
deriving DecidableEq

/-- The successful response body of `process_image` (the base64 encoding of
the visualization is an external-collaborator concern and is omitted). -/
structure CascadeResult where
  class_name : String
  confidence : ℚ
  model_used : String
deriving DecidableEq

/-- Call-count instrumentation: invocations of the Stage-2 adapter
(`SkinLesionClassifier.predict_with_gradcam`), of the attribution engine
against Stage-2 (`tensorflow_grad_cam` inside it), and of the attribution
engine against Stage-1. -/
structure AdapterCalls where
  nasnetPredict : ℕ
  nasnetGradCam : ℕ
  mobilenetGradCam : ℕ
deriving DecidableEq

/-- `ModelService.__init__` (app.py lines 46-54): the fixed 7-category
NASNet index-to-label table (a Python dict; `none` means `KeyError`). -/
def nasnet_classes (n : ℕ) : Option String :=
  ["Actinic Keratosis", "Basal Cell Carcinoma", "Benign Keratosis",
    "Dermatofibroma", "Melanoma", "Melanocytic Nevus",
    "Vascular Lesion"].get? n

/-- `ModelService.process_image` (app.py lines 58-112).  Oracles: PIL
decode (raising on undecodable bytes), `ImagePreprocessor.preprocess`, the
two networks, `tf.cast(·)/255.0`, and success of `tensorflow_grad_cam`.
Every exception raised inside the `try` block — including the
`HTTPException(400)` for a failed preprocess, which is itself an `Exception`
— is caught by `except Exception` and re-raised as
`HTTPException(500, str(e))`.  In the Stage-1-terminal branch the code calls
`self.mobilenet.gradcam_visualization(...)`, a method `MobileNetPredictor`
does not define, so that branch raises `AttributeError` before any
attribution runs. -/
def process_image {Img Buf : Type}
    (pilDecode : Buf → Option Img)
    (prep : Img → Option Img)
    (mobilenetForward : Img → List ℚ)
    (castScale : Img → Img)
    (nasnetForward : Img → List ℚ)
    (nasnetGradCamOk : Img → ℕ → Bool)
    (image_bytes : Buf) : Except HTTPError CascadeResult × AdapterCalls :=
  match pilDecode image_bytes with
  | none => (.error ⟨500, "cannot identify image file"⟩, ⟨0, 0, 0⟩)
  | some image_array =>
    match prep image_array with
    | none => (.error ⟨500, "400: Image preprocessing failed"⟩, ⟨0, 0, 0⟩)
    | some processed_image =>
      let mobilenet_result := mobilenetPredict mobilenetForward processed_image
      if mobilenet_result.class_index = 0 then
        let nasnet_image := castScale processed_image
        match nasnetPredictWithGradcam nasnetForward nasnetGradCamOk
            nasnet_image with
        | .error e => (.error ⟨500, e⟩, ⟨1, 1, 0⟩)
        | .ok nasnet_result =>
          match nasnet_classes nasnet_result.class_index with
          | some final_class =>
            (.ok ⟨final_class,
              nasnet_result.probabilities.getD nasnet_result.class_index 0,
              "NASNetMobile"⟩, ⟨1, 1, 0⟩)
          | none => (.error ⟨500, "KeyError"⟩, ⟨1, 1, 0⟩)
      else
        (.error ⟨500,
          "MobileNetPredictor object has no attribute gradcam_visualization"⟩,
          ⟨0, 0, 0⟩)

theorem argmaxIdx_stage1_terminal : argmaxIdx [2/10, 8/10] = 1 := by
  norm_num [argmaxIdx, argmaxAux]

theorem argmaxIdx_stage1_specialist : argmaxIdx [9/10, 1/10] = 0 := by
  norm_num [argmaxIdx, argmaxAux]

/-- Claim C1, settled against the code: on a request whose Stage-1 softmax
output is `[0.2, 0.8]` (predicted class index 1, the terminal class), the
pipeline does not complete: the terminal branch calls the nonexistent method
`MobileNetPredictor.gradcam_visualization`, the resulting `AttributeError`
is caught by the blanket handler, and the request fails with HTTP 500
instead of returning `model_used = "MobileNetV2"` with confidence 0.8. -/
theorem c1_terminal_branch_raises {Img Buf : Type}
    (pilDecode : Buf → Option Img) (prep : Img → Option Img)
    (mobilenetForward : Img → List ℚ) (castScale : Img → Img)
    (nasnetForward : Img → List ℚ) (nasnetGradCamOk : Img → ℕ → Bool)
    (buf : Buf) (img pimg : Img)
    (hdecode : pilDecode buf = some img)
    (hprep : prep img = some pimg)
    (hstage1 : mobilenetForward pimg = [2/10, 8/10]) :
    (process_image pilDecode prep mobilenetForward castScale nasnetForward
        nasnetGradCamOk buf).1 =
      .error ⟨500,
        "MobileNetPredictor object has no attribute gradcam_visualization"⟩ := by
  simp [process_image, hdecode, hprep, mobilenetPredict, hstage1,
    argmaxIdx_stage1_terminal]

/-- Witness for C1 at fully concrete oracles. -/
theorem c1_terminal_branch_raises_witness :
    (process_image (fun _ : ℕ => some (0 : ℕ)) some
        (fun _ => [2/10, 8/10]) id (fun _ => []) (fun _ _ => true) 0).1 =
      .error ⟨500,
        "MobileNetPredictor object has no attribute gradcam_visualization"⟩ :=
  c1_terminal_branch_raises (fun _ : ℕ => some (0 : ℕ)) some
    (fun _ => [2/10, 8/10]) id (fun _ => []) (fun _ _ => true) 0 0 0
    rfl rfl rfl

/-- Claim C4, settled against the code: when Stage-1 predicts a nonzero
(terminal) class the Stage-2 adapter is never invoked — but contrary to the
claim no attribution path executes at all: the request errors out with the
`AttributeError` of the missing Stage-1 attribution method.  When Stage-1
predicts class 0, the Stage-2 adapter and the attribution engine against it
each run exactly once. -/
theorem c4_cascade_exclusivity {Img Buf : Type}
    (pilDecode : Buf → Option Img) (prep : Img → Option Img)
    (mobilenetForward : Img → List ℚ) (castScale : Img → Img)
    (nasnetForward : Img → List ℚ) (nasnetGradCamOk : Img → ℕ → Bool)
    (buf : Buf) (img pimg : Img)
    (hdecode : pilDecode buf = some img)
    (hprep : prep img = some pimg) :
    (argmaxIdx (mobilenetForward pimg) ≠ 0 →
      (process_image pilDecode prep mobilenetForward castScale nasnetForward
          nasnetGradCamOk buf).2 = ⟨0, 0, 0⟩
      ∧ (process_image pilDecode prep mobilenetForward castScale nasnetForward
          nasnetGradCamOk buf).1 =
        .error ⟨500,
          "MobileNetPredictor object has no attribute gradcam_visualization"⟩)
    ∧ (argmaxIdx (mobilenetForward pimg) = 0 →
      (process_image pilDecode prep mobilenetForward castScale nasnetForward
          nasnetGradCamOk buf).2.nasnetPredict = 1
      ∧ (process_image pilDecode prep mobilenetForward castScale nasnetForward
          nasnetGradCamOk buf).2.nasnetGradCam = 1) := by
  constructor
  · intro hne
    constructor <;>
      simp [process_image, hdecode, hprep, mobilenetPredict, hne]
  · intro heq
    constructor <;>
    · simp only [process_image, hdecode, hprep, mobilenetPredict, heq,
        if_true, reduceIte]
      rcases nasnetPredictWithGradcam nasnetForward nasnetGradCamOk
        (castScale pimg) with e | r
      · rfl
      · rcases hcls : nasnet_classes r.class_index with _ | s <;> simp [hcls]

/-- Witness for C4 at fully concrete oracles, exercising both branches of
the decision rule. -/
theorem c4_cascade_exclusivity_witness :
    (process_image (fun _ : ℕ => some (0 : ℕ)) some (fun _ => [2/10, 8/10])
        id (fun _ => []) (fun _ _ => true) 0).2 = ⟨0, 0, 0⟩
    ∧ (process_image (fun _ : ℕ => some (0 : ℕ)) some (fun _ => [9/10, 1/10])
        id (fun _ => []) (fun _ _ => true) 0).2.nasnetPredict = 1 := by
  constructor
  · exact ((c4_cascade_exclusivity (fun _ : ℕ => some (0 : ℕ)) some
      (fun _ => [2/10, 8/10]) id (fun _ => []) (fun _ _ => true) 0 0 0
      rfl rfl).1 (by rw [argmaxIdx_stage1_terminal]; norm_num)).1
  · exact ((c4_cascade_exclusivity (fun _ : ℕ => some (0 : ℕ)) some
      (fun _ => [9/10, 1/10]) id (fun _ => []) (fun _ _ => true) 0 0 0
      rfl rfl).2 argmaxIdx_stage1_specialist).1

/-- Claim C5, settled against the code: a request whose image bytes fail to
decode, or whose preprocessing yields `None`, fails with HTTP status 500 — a
server-error classification.  The `HTTPException(400, ...)` that app.py
raises for a failed preprocess is itself an `Exception`, so the blanket
`except Exception` catches it and re-raises it as
`HTTPException(500, "400: Image preprocessing failed")`; the claimed
client-error classification never reaches the caller. -/
theorem c5_invalid_input_reported_as_500 {Img Buf : Type}
    (pilDecode : Buf → Option Img) (prep : Img → Option Img)
    (mobilenetForward : Img → List ℚ) (castScale : Img → Img)
    (nasnetForward : Img → List ℚ) (nasnetGradCamOk : Img → ℕ → Bool)
    (buf : Buf) :
    (pilDecode buf = none →
      (process_image pilDecode prep mobilenetForward castScale nasnetForward
          nasnetGradCamOk buf).1 =
        .error ⟨500, "cannot identify image file"⟩)
    ∧ (∀ img : Img, pilDecode buf = some img → prep img = none →
      (process_image pilDecode prep mobilenetForward castScale nasnetForward
          nasnetGradCamOk buf).1 =
        .error ⟨500, "400: Image preprocessing failed"⟩) := by
  constructor
  · intro h
    simp [process_image, h]
  · intro img h1 h2
    simp [process_image, h1, h2]

/-- Witness for C5 at fully concrete oracles: undecodable bytes and a
preprocessing failure both surface as status 500. -/
theorem c5_invalid_input_reported_as_500_witness :
    (process_image (fun _ : ℕ => (none : Option ℕ)) some (fun _ => [])
        id (fun _ => []) (fun _ _ => true) 0).1 =
      .error ⟨500, "cannot identify image file"⟩
    ∧ (process_image (fun _ : ℕ => some (0 : ℕ)) (fun _ => none)
        (fun _ => []) id (fun _ => []) (fun _ _ => true) 0).1 =
      .error ⟨500, "400: Image preprocessing failed"⟩ := by
  constructor
  · exact (c5_invalid_input_reported_as_500 (fun _ : ℕ => (none : Option ℕ))
      some (fun _ => []) id (fun _ => []) (fun _ _ => true) 0).1 rfl
  · exact (c5_invalid_input_reported_as_500 (fun _ : ℕ => some (0 : ℕ))
      (fun _ => none) (fun _ => []) id (fun _ => []) (fun _ _ => true) 0).2
      0 rfl rfl

/-- Claim C8: on a request whose Stage-1 softmax output is `[0.9, 0.1]`
(predicted index 0, "needs specialist stage"), the Stage-2 adapter is
invoked exactly once, and when Stage-2 predicts class index 4 the final
result maps it through the fixed 7-category table to
`class_name = "Melanoma"`, with `model_used = "NASNetMobile"` (Stage 2) and
confidence equal to the Stage-2 probability at index 4. -/
theorem c8_specialist_branch {Img Buf : Type}
    (pilDecode : Buf → Option Img) (prep : Img → Option Img)
    (mobilenetForward : Img → List ℚ) (castScale : Img → Img)
    (nasnetForward : Img → List ℚ) (nasnetGradCamOk : Img → ℕ → Bool)
    (buf : Buf) (img pimg : Img)
    (hdecode : pilDecode buf = some img)
    (hprep : prep img = some pimg)
    (hstage1 : mobilenetForward pimg = [9/10, 1/10])
    (hstage2 : argmaxIdx (nasnetForward (castScale pimg)) = 4)
    (hgc : nasnetGradCamOk (castScale pimg) 4 = true) :
    (process_image pilDecode prep mobilenetForward castScale nasnetForward
        nasnetGradCamOk buf).1 =
      .ok ⟨"Melanoma", (nasnetForward (castScale pimg)).getD 4 0,
        "NASNetMobile"⟩
    ∧ (process_image pilDecode prep mobilenetForward castScale nasnetForward
        nasnetGradCamOk buf).2.nasnetPredict = 1 := by
  have hclasses : nasnet_classes 4 = some "Melanoma" := rfl
  constructor <;>
    simp only [process_image, hdecode, hprep, mobilenetPredict, hstage1,
      argmaxIdx_stage1_specialist, nasnetPredictWithGradcam, hstage2, hgc,
      hclasses, reduceIte, if_true]

theorem argmaxIdx_c8_witness_probs :
    argmaxIdx [1/20, 1/20, 1/10, 1/10, 2/5, 1/5, 1/10] = 4 := by
  norm_num [argmaxIdx, argmaxAux]

/-- Witness for C8 at fully concrete oracles: Stage-2 softmax
`[0.05, 0.05, 0.1, 0.1, 0.4, 0.2, 0.1]` (argmax 4, confidence 0.4). -/
theorem c8_specialist_branch_witness :
    (process_image (fun _ : ℕ => some (0 : ℕ)) some (fun _ => [9/10, 1/10])
        id (fun _ => [1/20, 1/20, 1/10, 1/10, 2/5, 1/5, 1/10])
        (fun _ _ => true) 0).1 =
      .ok ⟨"Melanoma", 2/5, "NASNetMobile"⟩ := by
  have h := c8_specialist_branch (fun _ : ℕ => some (0 : ℕ)) some
    (fun _ => [9/10, 1/10]) id
    (fun _ => [1/20, 1/20, 1/10, 1/10, 2/5, 1/5, 1/10]) (fun _ _ => true)
    0 0 0 rfl rfl rfl argmaxIdx_c8_witness_probs rfl
  rw [h.1]
  rfl

end DermCareAI
